import Mathlib

/-!
Verification development for the dynamic-DNS update client
(`src/base/net/dnsupdater.cpp`).

The client's state machine is shallowly embedded: the Qt object
`DNSUpdater` becomes a record of its mutable fields, and each member
function becomes a pure state-transformer.  External Qt collaborators
(the HTTP downloader, the regular-expression engine used on the
IP-discovery response, and `QHostAddress` parsing) are modelled as
explicit inputs, matching the spec's view of them as injected
collaborators.  The `QTimer m_ipCheckTimer` is modelled by its running
status, the only aspect the client observes or mutates
(`start`/`stop`).  Wall-clock timestamps are not modelled: no claim
mentions them.
-/

set_option autoImplicit false

/-- The dynamic-DNS provider selector (`DNS::Service`). -/
inductive DNSService
  | None
  | DynDNS
  | NoIP
deriving DecidableEq

/-- The client operational state (`DNSUpdater::State`): the source's
`OK` / `INVALID_CREDS` / `FATAL`, which the spec names `Operational` /
`CredentialsInvalid` / `Fatal`. -/
inductive ClientState
  | OK
  | INVALID_CREDS
  | FATAL
deriving DecidableEq

/-- The mutable fields of `DNSUpdater`.  `m_lastIP` is `none` when the
`QHostAddress` is null (cleared); the stored `String` is the address
text.  `m_ipCheckTimerRunning` is whether `m_ipCheckTimer` is active. -/
structure UpdaterState where
  m_state : ClientState
  m_ipCheckTimerRunning : Bool
  m_lastIP : Option String
  m_service : DNSService
  m_domain : String
  m_username : String
  m_password : String
deriving DecidableEq

/-- The prefix of a character list up to (excluding) the first space
character.  `QString::split(u' ').first()` returns exactly this prefix:
Qt splits at every occurrence of the single character and keeps empty
parts, so the first part is the run before the first `' '` (the whole
string when no space occurs, empty when the string starts with one). -/
def firstSpaceFieldAux : List Char → List Char
  | [] => []
  | c :: cs => if c = ' ' then [] else c :: firstSpaceFieldAux cs

/-- `reply.split(u' ').first()` from line 182 of the source. -/
def parsedCode (reply : String) : String :=
  ⟨firstSpaceFieldAux reply.data⟩

/-- `DNSUpdater::processIPUpdateReply` (lines 178-237): interpret the
provider's update response.  Log messages are not modelled.  Note that
once the code is none of `good`/`nochg`/`911`/`dnserr`, the source stops
the timer and clears `m_lastIP` (lines 200-201) before testing the
remaining codes, so those effects also apply to unrecognized codes. -/
def processIPUpdateReply (s : UpdaterState) (reply : String) : UpdaterState :=
  let code := parsedCode reply
  if code = "good" ∨ code = "nochg" then
    s
  else if code = "911" ∨ code = "dnserr" then
    { s with m_lastIP := none }
  else
    -- "Everything below is an error, stop updating until the user updates something"
    let s := { s with m_ipCheckTimerRunning := false, m_lastIP := none }
    if code = "nohost" then
      { s with m_state := ClientState.INVALID_CREDS }
    else if code = "badauth" then
      { s with m_state := ClientState.INVALID_CREDS }
    else if code = "badagent" then
      { s with m_state := ClientState.FATAL }
    else if code = "!donator" then
      { s with m_state := ClientState.FATAL }
    else if code = "abuse" then
      { s with m_state := ClientState.FATAL }
    else
      s

/-- Split a character list at every occurrence of `sep`, keeping empty
parts, as `QString::split(QChar)` does: `"a.b" ↦ [a],[b]`,
`"" ↦ [[]]`, `"a." ↦ [a],[]`. -/
def splitOnChar (sep : Char) : List Char → List (List Char)
  | [] => [[]]
  | c :: cs =>
    match splitOnChar sep cs with
    | [] => if c = sep then [[], []] else [[c]]
    | t :: ts => if c = sep then [] :: t :: ts else (c :: t) :: ts

/-- One label group of the domain regular expression
`(?!\d|-)[a-zA-Z0-9\-]{1,63}` : 1 to 63 characters drawn from ASCII
letters, digits and hyphen, the first of which is neither a digit nor a
hyphen. -/
def isDomainLabel (l : List Char) : Bool :=
  match l with
  | [] => false
  | c :: _ =>
    decide (l.length ≤ 63) && !c.isDigit && !(c = '-') &&
      l.all (fun d => d.isAlpha || d.isDigit || d = '-')

/-- The trailing top-level-domain part `[a-zA-Z]{2,}` of the domain
regular expression: at least two characters, all ASCII letters. -/
def isDomainTld (l : List Char) : Bool :=
  decide (2 ≤ l.length) && l.all Char.isAlpha

/-- The anchored domain pattern of line 254,
`^(?:(?!\d|-)[a-zA-Z0-9\-]{1,63}\.)+[a-zA-Z]{2,}$` : since neither a
label nor the TLD may contain a dot and labels are non-empty, a string
matches exactly when its dot-separated parts are one or more valid
labels followed by a valid TLD. -/
def domainRegexMatches (d : String) : Bool :=
  match (splitOnChar '.' d.data).reverse with
  | [] => false
  | tld :: labels => !labels.isEmpty && labels.all isDomainLabel && isDomainTld tld

/-- The new preference values read inside `updateCredentials` from the
`Preferences` collaborator (`getDynDNSService`, `getDynDomainName`,
`getDynDNSUsername`, `getDynDNSPassword`). -/
structure Prefs where
  service : DNSService
  domain : String
  username : String
  password : String
deriving DecidableEq

/-- The common failure path of `updateCredentials` (e.g. lines 258-260):
clear `m_lastIP`, stop the timer, enter `INVALID_CREDS`. -/
def credFailure (s : UpdaterState) : UpdaterState :=
  { s with m_lastIP := none, m_ipCheckTimerRunning := false,
           m_state := ClientState.INVALID_CREDS }

/-- Result of `updateCredentials`: the new client state plus whether the
call invoked `checkPublicIP()` (line 296). -/
structure UCResult where
  st : UpdaterState
  checkedPublicIP : Bool
deriving DecidableEq

/-- `DNSUpdater::updateCredentials` (lines 239-298).  Each of the four
configuration fields that differs from the stored value is adopted and
then validated; a validation failure aborts with `credFailure` (the
freshly adopted value remains stored, later fields are not examined).
If anything changed, all adopted values validated, and the state was
`INVALID_CREDS`, the client re-enters `OK`, restarts the timer and
immediately checks the public IP. -/
def updateCredentials (s0 : UpdaterState) (p : Prefs) : UCResult :=
  if s0.m_state = ClientState.FATAL then ⟨s0, false⟩ else
  let changeService := ¬ (s0.m_service = p.service)
  let s1 := if changeService then { s0 with m_service := p.service } else s0
  let changeDomain := ¬ (s1.m_domain = p.domain)
  let s2 := if changeDomain then { s1 with m_domain := p.domain } else s1
  if changeDomain ∧ ¬ domainRegexMatches p.domain then ⟨credFailure s2, false⟩ else
  let changeUsername := ¬ (s2.m_username = p.username)
  let s3 := if changeUsername then { s2 with m_username := p.username } else s2
  if changeUsername ∧ p.username.length < 4 then ⟨credFailure s3, false⟩ else
  let changePassword := ¬ (s3.m_password = p.password)
  let s4 := if changePassword then { s3 with m_password := p.password } else s3
  if changePassword ∧ p.password.length < 4 then ⟨credFailure s4, false⟩ else
  let change := changeService ∨ changeDomain ∨ changeUsername ∨ changePassword
  if s4.m_state = ClientState.INVALID_CREDS ∧ change then
    ⟨{ s4 with m_state := ClientState.OK, m_ipCheckTimerRunning := true }, true⟩
  else
    ⟨s4, false⟩

/-- Status of a completed download, as reported by the downloader
collaborator (`DownloadStatus`). -/
inductive DLStatus
  | Success
  | Failed
deriving DecidableEq

/-- A completed download delivered to a callback (`DownloadResult`):
its status and the response body. -/
structure DLResult where
  status : DLStatus
  data : String
deriving DecidableEq

/-- `DNSUpdater::ipRequestFinished` (lines 86-120), the discovery
callback.  The Qt collaborators that extract the address text with the
pattern `Current IP Address:\s+([^<]+)</body>` and parse it as a
`QHostAddress` are passed in as `extractIP`: it returns `some ip`
exactly when the pattern matches and the captured text is a valid
(non-null) host address.  The returned flag records whether
`updateDNSService()` was invoked. -/
def ipRequestFinished (extractIP : String → Option String)
    (s : UpdaterState) (r : DLResult) : UpdaterState × Bool :=
  if ¬ (r.status = DLStatus.Success) then (s, false)
  else
    match extractIP r.data with
    | none => (s, false)
    | some newIp =>
      if ¬ (s.m_lastIP = some newIp) then
        ({ s with m_lastIP := some newIp }, true)
      else
        (s, false)

/-- `DNSUpdater::ipUpdateFinished` (lines 170-176): the update callback
processes the body on transport success and does nothing otherwise. -/
def ipUpdateFinished (s : UpdaterState) (r : DLResult) : UpdaterState :=
  if r.status = DLStatus.Success then processIPUpdateReply s r.data
  else s

/-- A concrete healthy client state used by witnesses. -/
def sampleState : UpdaterState :=
  { m_state := ClientState.OK
    m_ipCheckTimerRunning := true
    m_lastIP := some "1.2.3.4"
    m_service := DNSService.DynDNS
    m_domain := "example.com"
    m_username := "user1"
    m_password := "pass1" }

example : parsedCode "badauth extra text" = "badauth" := by decide

example : domainRegexMatches "example.com" = true := by decide

example : domainRegexMatches "3xample.com" = false := by decide

example : domainRegexMatches "example.c" = false := by decide

example : (processIPUpdateReply sampleState "surprise").m_ipCheckTimerRunning = false := by
  decide

/-- C2: a reply whose parsed code is `nohost` or `badauth` puts the
client in `INVALID_CREDS` with the timer stopped and the last IP
cleared; a code `badagent`, `!donator` or `abuse` does the same but
with state `FATAL`. -/
theorem processIPUpdateReply_creds_and_fatal (s : UpdaterState) (reply : String) :
    ((parsedCode reply = "nohost" ∨ parsedCode reply = "badauth") →
      processIPUpdateReply s reply =
        { s with m_state := ClientState.INVALID_CREDS,
                 m_ipCheckTimerRunning := false, m_lastIP := none })
    ∧ ((parsedCode reply = "badagent" ∨ parsedCode reply = "!donator" ∨
          parsedCode reply = "abuse") →
      processIPUpdateReply s reply =
        { s with m_state := ClientState.FATAL,
                 m_ipCheckTimerRunning := false, m_lastIP := none }) := by
  unfold processIPUpdateReply
  constructor
  · rintro (h | h) <;> simp [h]
  · rintro (h | h | h) <;> simp [h]

/-- C2 witness: a `badauth` reply at the sample state. -/
theorem processIPUpdateReply_creds_and_fatal_witness :
    processIPUpdateReply sampleState "badauth" =
      { sampleState with m_state := ClientState.INVALID_CREDS,
                         m_ipCheckTimerRunning := false, m_lastIP := none } :=
  (processIPUpdateReply_creds_and_fatal sampleState "badauth").1 (Or.inr (by decide))

/-- C3: a reply whose parsed code is `911` or `dnserr` clears the last
IP and changes nothing else: the state and the timer status are kept
(the timer is not stopped, so polling continues). -/
theorem processIPUpdateReply_transient (s : UpdaterState) (reply : String)
    (h : parsedCode reply = "911" ∨ parsedCode reply = "dnserr") :
    processIPUpdateReply s reply = { s with m_lastIP := none } := by
  unfold processIPUpdateReply
  rcases h with h | h <;> simp [h]

/-- C3 witness: a `911` reply at the sample state. -/
theorem processIPUpdateReply_transient_witness :
    processIPUpdateReply sampleState "911" = { sampleState with m_lastIP := none } :=
  processIPUpdateReply_transient sampleState "911" (Or.inl (by decide))

/-- C8: in the `FATAL` state, `updateCredentials` changes nothing and
triggers no public-IP check, whatever values are supplied. -/
theorem updateCredentials_fatal_noop (s : UpdaterState) (p : Prefs)
    (h : s.m_state = ClientState.FATAL) :
    updateCredentials s p = ⟨s, false⟩ := by
  unfold updateCredentials
  rw [if_pos h]

/-- C8 witness: a fatal-state client ignores a full credential change. -/
theorem updateCredentials_fatal_noop_witness :
    updateCredentials { sampleState with m_state := ClientState.FATAL }
        ⟨DNSService.NoIP, "other.example.org", "fresh", "secret"⟩ =
      ⟨{ sampleState with m_state := ClientState.FATAL }, false⟩ :=
  updateCredentials_fatal_noop _ _ (by decide)

/-- C10: when no supplied value differs from the stored one and the
state is not `FATAL`, `updateCredentials` is a no-op: the state record
is returned untouched and no public-IP check is triggered (in
particular no validation runs on the unchanged stored values). -/
theorem updateCredentials_no_change_noop (s : UpdaterState) (p : Prefs)
    (hnf : ¬ s.m_state = ClientState.FATAL)
    (h1 : s.m_service = p.service) (h2 : s.m_domain = p.domain)
    (h3 : s.m_username = p.username) (h4 : s.m_password = p.password) :
    updateCredentials s p = ⟨s, false⟩ := by
  unfold updateCredentials
  simp [hnf, h1, h2, h3, h4]

/-- C10 witness: a client whose stored username and password are
shorter than 4 characters and whose domain violates the pattern is not
re-rejected when `updateCredentials` re-reads identical values. -/
theorem updateCredentials_no_change_noop_witness :
    updateCredentials
        { m_state := ClientState.OK, m_ipCheckTimerRunning := true,
          m_lastIP := some "1.2.3.4", m_service := DNSService.NoIP,
          m_domain := "9bad", m_username := "ab", m_password := "xy" }
        ⟨DNSService.NoIP, "9bad", "ab", "xy"⟩ =
      ⟨{ m_state := ClientState.OK, m_ipCheckTimerRunning := true,
         m_lastIP := some "1.2.3.4", m_service := DNSService.NoIP,
         m_domain := "9bad", m_username := "ab", m_password := "xy" }, false⟩ :=
  updateCredentials_no_change_noop _ _ (by decide) (by decide) (by decide) (by decide)
    (by decide)

/-- C1 counterexample: `hello world` is none of the documented codes,
yet processing it does not leave the timer and the last IP unchanged:
starting from a state with the timer running and a cached IP, the timer
is stopped and the IP cleared (only the client state is untouched). -/
theorem processIPUpdateReply_unknown_code_counterexample :
    sampleState.m_ipCheckTimerRunning = true ∧
    sampleState.m_lastIP = some "1.2.3.4" ∧
    (processIPUpdateReply sampleState "hello world").m_ipCheckTimerRunning = false ∧
    (processIPUpdateReply sampleState "hello world").m_lastIP = none := by
  decide

/-- C1 amended: a reply whose parsed code is outside the documented set
leaves the client state unchanged but stops the timer and clears the
last IP (the effects of lines 200-201, which run before any of the
specific error codes are tested), with no further effect. -/
theorem processIPUpdateReply_unknown_code (s : UpdaterState) (reply : String)
    (h : parsedCode reply ∉
      (["good", "nochg", "911", "dnserr", "nohost", "badauth",
        "badagent", "!donator", "abuse"] : List String)) :
    processIPUpdateReply s reply =
      { s with m_ipCheckTimerRunning := false, m_lastIP := none } := by
  simp only [List.mem_cons, List.not_mem_nil, or_false, not_or] at h
  obtain ⟨h1, h2, h3, h4, h5, h6, h7, h8, h9⟩ := h
  unfold processIPUpdateReply
  simp [h1, h2, h3, h4, h5, h6, h7, h8, h9]

/-- C1 amended witness: the unknown code `hello` at the sample state. -/
theorem processIPUpdateReply_unknown_code_witness :
    processIPUpdateReply sampleState "hello world" =
      { sampleState with m_ipCheckTimerRunning := false, m_lastIP := none } :=
  processIPUpdateReply_unknown_code sampleState "hello world" (by decide)

/-- Stated from the spec's words for comparison with `parsedCode`: the
first whitespace-delimited token of a body, i.e. its first maximal run
of non-whitespace characters (leading whitespace skipped). -/
def takeUntilWhitespace : List Char → List Char
  | [] => []
  | c :: cs => if c.isWhitespace then [] else c :: takeUntilWhitespace cs

/-- First whitespace-delimited token of the body, per the spec. -/
def firstWhitespaceToken (body : String) : String :=
  ⟨takeUntilWhitespace (body.data.dropWhile Char.isWhitespace)⟩

/-- C4 counterexample: for the body made of `badauth`, a tab and
`more`, the first whitespace-delimited token is `badauth`, whose table
row demands `INVALID_CREDS` (as processing the plain body `badauth`
indeed yields); but the source splits on the space character only, so
processing that body leaves the client state `OK`. -/
theorem processIPUpdateReply_whitespace_counterexample :
    firstWhitespaceToken "badauth\tmore" = "badauth" ∧
    (processIPUpdateReply sampleState "badauth").m_state =
      ClientState.INVALID_CREDS ∧
    (processIPUpdateReply sampleState "badauth\tmore").m_state =
      ClientState.OK := by
  decide

/-- C4 amended: the response code applied to the outcome table is the
first token delimited by the space character (the prefix of the body up
to the first space, not up to arbitrary whitespace): two bodies with
the same such token are processed identically, and the body
`badauth extra text` is processed as the code `badauth`. -/
theorem processIPUpdateReply_code_is_space_token :
    (∀ (s : UpdaterState) (r1 r2 : String), parsedCode r1 = parsedCode r2 →
      processIPUpdateReply s r1 = processIPUpdateReply s r2) ∧
    (processIPUpdateReply sampleState "badauth extra text").m_state =
      ClientState.INVALID_CREDS := by
  constructor
  · intro s r1 r2 h
    unfold processIPUpdateReply
    rw [h]
  · decide

/-- C4 amended witness: `badauth extra text` and `badauth more` share
the space-delimited token `badauth` and are processed identically. -/
theorem processIPUpdateReply_code_is_space_token_witness :
    processIPUpdateReply sampleState "badauth extra text" =
      processIPUpdateReply sampleState "badauth more" :=
  processIPUpdateReply_code_is_space_token.1 sampleState
    "badauth extra text" "badauth more" (by decide)

/-- C5: when the supplied domain differs from the stored one, a domain
violating the hostname pattern makes `updateCredentials` clear the last
IP, stop the timer, enter `INVALID_CREDS` and abort (the username and
password are left unexamined and unchanged); a domain matching the
pattern is accepted: with the other credential fields unchanged the
call ends in the `OK` state with the new domain stored. -/
theorem updateCredentials_domain_validation (s : UpdaterState) (p : Prefs)
    (hnf : s.m_state ≠ ClientState.FATAL)
    (hd : s.m_domain ≠ p.domain) :
    (domainRegexMatches p.domain = false →
      updateCredentials s p =
        ⟨{ s with m_service := p.service, m_domain := p.domain,
                  m_lastIP := none, m_ipCheckTimerRunning := false,
                  m_state := ClientState.INVALID_CREDS }, false⟩)
    ∧ (domainRegexMatches p.domain = true → s.m_username = p.username →
        s.m_password = p.password →
      (updateCredentials s p).st.m_state = ClientState.OK ∧
      (updateCredentials s p).st.m_domain = p.domain) := by
  constructor
  · intro hm
    unfold updateCredentials
    rw [if_neg hnf]
    by_cases hs : s.m_service = p.service <;>
      simp [hs, hd, hm, credFailure]
  · intro hm hu hp
    unfold updateCredentials
    rw [if_neg hnf]
    by_cases hs : s.m_service = p.service <;>
      cases hst : s.m_state <;>
      simp_all [credFailure]

/-- C5 witness: at the sample state, the domain `9bad.example.com`
(label starting with a digit) is rejected with the full failure
outcome. -/
theorem updateCredentials_domain_validation_witness :
    updateCredentials sampleState
        ⟨DNSService.DynDNS, "9bad.example.com", "user1", "pass1"⟩ =
      ⟨{ sampleState with m_service := DNSService.DynDNS,
                          m_domain := "9bad.example.com",
                          m_lastIP := none, m_ipCheckTimerRunning := false,
                          m_state := ClientState.INVALID_CREDS }, false⟩ :=
  (updateCredentials_domain_validation sampleState
      ⟨DNSService.DynDNS, "9bad.example.com", "user1", "pass1"⟩
      (by decide) (by decide)).1 (by decide)

/-- C6: a supplied username (resp. password) shorter than 4 characters
that differs from the stored one always drives `updateCredentials` into
`INVALID_CREDS` with the last IP cleared and the timer stopped;
conversely, when both supplied values have length at least 4 and the
domain is unchanged or valid, the call never fails: the state is
preserved or becomes `OK`. -/
theorem updateCredentials_length_validation (s : UpdaterState) (p : Prefs)
    (hnf : s.m_state ≠ ClientState.FATAL) :
    (s.m_username ≠ p.username → p.username.length < 4 →
      (updateCredentials s p).st.m_state = ClientState.INVALID_CREDS ∧
      (updateCredentials s p).st.m_lastIP = none ∧
      (updateCredentials s p).st.m_ipCheckTimerRunning = false)
    ∧ (s.m_password ≠ p.password → p.password.length < 4 →
      (updateCredentials s p).st.m_state = ClientState.INVALID_CREDS ∧
      (updateCredentials s p).st.m_lastIP = none ∧
      (updateCredentials s p).st.m_ipCheckTimerRunning = false)
    ∧ (4 ≤ p.username.length → 4 ≤ p.password.length →
       (s.m_domain = p.domain ∨ domainRegexMatches p.domain = true) →
      ((updateCredentials s p).st.m_state = s.m_state ∨
       (updateCredentials s p).st.m_state = ClientState.OK)) := by
  refine ⟨?_, ?_, ?_⟩
  · intro hu hlen
    unfold updateCredentials
    rw [if_neg hnf]
    by_cases hs : s.m_service = p.service <;>
    by_cases hd : s.m_domain = p.domain <;>
    by_cases hdm : domainRegexMatches p.domain <;>
    simp_all [credFailure]
  · intro hp hlen
    unfold updateCredentials
    rw [if_neg hnf]
    by_cases hs : s.m_service = p.service <;>
    by_cases hd : s.m_domain = p.domain <;>
    by_cases hdm : domainRegexMatches p.domain <;>
    by_cases hu : s.m_username = p.username <;>
    by_cases hul : p.username.length < 4 <;>
    simp_all [credFailure, -not_lt, -Nat.not_lt]
  · intro h4u h4p hdok
    have hunl : (p.username.length < 4) = False := eq_false (by omega)
    have hpnl : (p.password.length < 4) = False := eq_false (by omega)
    unfold updateCredentials
    rw [if_neg hnf]
    by_cases hs : s.m_service = p.service <;>
    by_cases hd : s.m_domain = p.domain <;>
    by_cases hu : s.m_username = p.username <;>
    by_cases hp : s.m_password = p.password <;>
    cases hst : s.m_state <;>
    simp_all [credFailure, -not_lt, -Nat.not_lt]

/-- C6 witness: at the sample state, the 2-character username `ab` is
rejected with the full failure outcome. -/
theorem updateCredentials_length_validation_witness :
    (updateCredentials sampleState
        ⟨DNSService.DynDNS, "example.com", "ab", "pass1"⟩).st.m_state =
      ClientState.INVALID_CREDS :=
  ((updateCredentials_length_validation sampleState
      ⟨DNSService.DynDNS, "example.com", "ab", "pass1"⟩ (by decide)).1
    (by decide) (by decide)).1

/-- C7: from the `INVALID_CREDS` state, a call that changes at least
one of the four fields, all changed fields passing validation, ends in
the `OK` state with the timer restarted and an immediate
`checkPublicIP` triggered. -/
theorem updateCredentials_recovery (s : UpdaterState) (p : Prefs)
    (hinv : s.m_state = ClientState.INVALID_CREDS)
    (hch : s.m_service ≠ p.service ∨ s.m_domain ≠ p.domain ∨
           s.m_username ≠ p.username ∨ s.m_password ≠ p.password)
    (hdv : s.m_domain ≠ p.domain → domainRegexMatches p.domain = true)
    (huv : s.m_username ≠ p.username → 4 ≤ p.username.length)
    (hpv : s.m_password ≠ p.password → 4 ≤ p.password.length) :
    (updateCredentials s p).st.m_state = ClientState.OK ∧
    (updateCredentials s p).st.m_ipCheckTimerRunning = true ∧
    (updateCredentials s p).checkedPublicIP = true := by
  have hnf : s.m_state ≠ ClientState.FATAL := by simp [hinv]
  have hdm : s.m_domain = p.domain ∨ domainRegexMatches p.domain = true :=
    or_iff_not_imp_left.mpr hdv
  have hul : s.m_username = p.username ∨ (p.username.length < 4) = False := by
    rcases Classical.em (s.m_username = p.username) with h | h
    · exact Or.inl h
    · exact Or.inr (eq_false (by have := huv h; omega))
  have hpl : s.m_password = p.password ∨ (p.password.length < 4) = False := by
    rcases Classical.em (s.m_password = p.password) with h | h
    · exact Or.inl h
    · exact Or.inr (eq_false (by have := hpv h; omega))
  unfold updateCredentials
  rw [if_neg hnf]
  by_cases hs : s.m_service = p.service <;>
  by_cases hd : s.m_domain = p.domain <;>
  by_cases hu : s.m_username = p.username <;>
  by_cases hp : s.m_password = p.password <;>
  simp_all [credFailure, -not_lt, -Nat.not_lt]

/-- C7 witness: a client stuck in `INVALID_CREDS` recovers when a valid
username replaces the stored one. -/
theorem updateCredentials_recovery_witness :
    (updateCredentials
        { sampleState with m_state := ClientState.INVALID_CREDS,
                           m_ipCheckTimerRunning := false }
        ⟨DNSService.DynDNS, "example.com", "newuser", "pass1"⟩).checkedPublicIP =
      true :=
  (updateCredentials_recovery
      { sampleState with m_state := ClientState.INVALID_CREDS,
                         m_ipCheckTimerRunning := false }
      ⟨DNSService.DynDNS, "example.com", "newuser", "pass1"⟩
      (by decide) (by decide)
      (fun h => absurd (by decide) h) (fun _ => by decide)
      (fun h => absurd (by decide) h)).2.2

/-- Helper: `processIPUpdateReply` either preserves the last IP or
clears it; it never stores a different address. -/
theorem processIPUpdateReply_lastIP_cases (s : UpdaterState) (reply : String) :
    (processIPUpdateReply s reply).m_lastIP = s.m_lastIP ∨
    (processIPUpdateReply s reply).m_lastIP = none := by
  simp only [processIPUpdateReply]
  repeat' split
  all_goals simp

/-- Helper: `updateCredentials` either preserves the last IP or clears
it; it never stores a different address. -/
theorem updateCredentials_lastIP_cases (s : UpdaterState) (p : Prefs) :
    (updateCredentials s p).st.m_lastIP = s.m_lastIP ∨
    (updateCredentials s p).st.m_lastIP = none := by
  by_cases hf : s.m_state = ClientState.FATAL
  · simp [updateCredentials, hf]
  · unfold updateCredentials
    rw [if_neg hf]
    by_cases hs : s.m_service = p.service <;>
    by_cases hd : s.m_domain = p.domain <;>
    by_cases hdm : domainRegexMatches p.domain <;>
    by_cases hu : s.m_username = p.username <;>
    by_cases hul : p.username.length < 4 <;>
    by_cases hp : s.m_password = p.password <;>
    by_cases hpl : p.password.length < 4 <;>
    by_cases hst : s.m_state = ClientState.INVALID_CREDS <;>
    simp_all [credFailure, -not_lt, -Nat.not_lt]

/-- C9: the last-IP policy across the embedded operations.  (1) The
discovery callback changes `m_lastIP` only on a successful download
whose body yields a valid extracted address, in which case the new
value is that address and an update cycle is triggered.  (2) and (4)
`processIPUpdateReply` and `updateCredentials` never assign a new
address: they preserve or clear the field.  (3) Every code by which the
update protocol signals a provider-side problem or invalid input
clears it.  (5) The update callback also never assigns a new
address. -/
theorem lastIP_assignment_policy :
    (∀ (f : String → Option String) (s : UpdaterState) (r : DLResult),
      (ipRequestFinished f s r).1.m_lastIP ≠ s.m_lastIP →
      r.status = DLStatus.Success ∧
      ∃ ip, f r.data = some ip ∧
        (ipRequestFinished f s r).1.m_lastIP = some ip ∧
        (ipRequestFinished f s r).2 = true)
    ∧ (∀ (s : UpdaterState) (reply : String),
        (processIPUpdateReply s reply).m_lastIP = s.m_lastIP ∨
        (processIPUpdateReply s reply).m_lastIP = none)
    ∧ (∀ (s : UpdaterState) (reply : String),
        parsedCode reply ∈
          (["911", "dnserr", "nohost", "badauth", "badagent",
            "!donator", "abuse"] : List String) →
        (processIPUpdateReply s reply).m_lastIP = none)
    ∧ (∀ (s : UpdaterState) (p : Prefs),
        (updateCredentials s p).st.m_lastIP = s.m_lastIP ∨
        (updateCredentials s p).st.m_lastIP = none)
    ∧ (∀ (s : UpdaterState) (r : DLResult),
        (ipUpdateFinished s r).m_lastIP = s.m_lastIP ∨
        (ipUpdateFinished s r).m_lastIP = none) := by
  refine ⟨?_, processIPUpdateReply_lastIP_cases, ?_,
    updateCredentials_lastIP_cases, ?_⟩
  · intro f s r h
    by_cases hst : r.status = DLStatus.Success
    · refine ⟨hst, ?_⟩
      unfold ipRequestFinished at h ⊢
      simp only [hst, not_true, if_neg, ite_false] at h ⊢
      cases hext : f r.data with
      | none => simp [hext] at h
      | some ip =>
        by_cases hip : s.m_lastIP = some ip
        · simp [hext, hip] at h
        · refine ⟨ip, rfl, ?_⟩
          simp [hext, hip]
    · exfalso
      apply h
      unfold ipRequestFinished
      simp [hst]
  · intro s reply h
    simp only [List.mem_cons, List.not_mem_nil, or_false] at h
    rcases h with h | h | h | h | h | h | h <;>
      simp [processIPUpdateReply, h]
  · intro s r
    unfold ipUpdateFinished
    split
    · exact processIPUpdateReply_lastIP_cases s r.data
    · exact Or.inl rfl

/-- C9 witness: a `911` reply at the sample state clears the cached
IP. -/
theorem lastIP_assignment_policy_witness :
    (processIPUpdateReply sampleState "911").m_lastIP = none :=
  lastIP_assignment_policy.2.2.1 sampleState "911" (by decide)
